import Mathlib

/-!
Verification of the autou-email-classifier repository against its
natural-language specification.

The repository's `src/` tree contains only the React frontend (API client,
upload component, hooks, page).  The backend pipeline described by the spec
(Document Normalizer, Feature Extractor, Classification Engine, Response
Composer, Stats Aggregator, Orchestrator) is not under `src/`; those parts
are modelled from the spec's words and are marked as such in their doc
comments.  Frontend behaviour (axios error interceptor, file-upload
validation handler, `useEmailProcessing` state machine) is embedded directly
from the TypeScript sources.
-/

namespace Core

/-- Classification labels (spec §3, ClassificationResult.label). -/
inductive Label
  | PRODUCTIVE
  | UNPRODUCTIVE
deriving DecidableEq, Repr

/-- Source format of a normalized document (spec §3, EmailDocument.sourceFormat). -/
inductive SourceFormat
  | plainText
  | pdf
  | eml
deriving DecidableEq, Repr

/-- Modelled from the spec: `EmailDocument` (§3); the backend data model is not
under `src/`. -/
structure EmailDocument where
  text : String
  subject : Option String
  sourceFormat : SourceFormat
  hasAttachments : Bool
  rawByteLength : Nat
deriving DecidableEq, Repr

/-- Lexical signal categories (spec §3, FeatureSet.lexicalSignals). -/
inductive SignalCategory
  | gratitude
  | request
  | errorReport
  | closingPleasantry
deriving DecidableEq, Repr

/-- Modelled from the spec: `FeatureSet` (§3); the backend Feature Extractor is
not under `src/`. -/
structure FeatureSet where
  wordCount : Nat
  language : String
  lexicalSignals : List SignalCategory
deriving DecidableEq, Repr

/-- Lowercased character sequence of a text (the case-insensitive matching of
spec §4.2). -/
def charsLower (s : String) : List Char :=
  s.toList.map Char.toLower

/-- Whether the first character list is an initial segment of the second. -/
def leadsChars : List Char → List Char → Bool
  | [], _ => true
  | _ :: _, [] => false
  | a :: as, b :: bs => a == b && leadsChars as bs

/-- Whether `pat` occurs as a contiguous subsequence of the character list. -/
def containsChars (pat : List Char) : List Char → Bool
  | [] => pat.isEmpty
  | c :: rest => leadsChars pat (c :: rest) || containsChars pat rest

/-- Whether any of the keyword patterns occurs in the character list (the
keyword-set membership tests of spec §4.2). -/
def containsAny (l : List Char) (pats : List String) : Bool :=
  pats.any (fun p => containsChars p.toList l)

/-- Ticket-number pattern detector: a '#' immediately followed by a digit
(spec §4.2, "ticket-pattern regex for strings like #12345"). -/
def hasTicket : List Char → Bool
  | [] => false
  | [_] => false
  | a :: b :: rest => (a = '#' && b.isDigit) || hasTicket (b :: rest)

/-- Number of question marks in a string (spec §4.3 structural bonus). -/
def questionMarks (s : String) : Nat :=
  s.toList.count '?'

/-- Emoji presence: any character at or above U+1F300 (spec §4.3 structural
bonus for emoji presence). -/
def hasEmoji (s : String) : Bool :=
  s.toList.any (fun c => 0x1F300 ≤ c.toNat)

/-- Splitting into maximal whitespace-free chunks, accumulating the current
chunk in reverse (spec §4.2, "Word count splits on whitespace"). -/
def wordsAux : List Char → List Char → List (List Char)
  | [], [] => []
  | [], acc => [acc.reverse]
  | c :: rest, acc =>
      if c.isWhitespace then
        match acc with
        | [] => wordsAux rest []
        | _ => acc.reverse :: wordsAux rest []
      else wordsAux rest (c :: acc)

/-- Words of a text: maximal whitespace-free chunks. -/
def wordsOf (s : String) : List (List Char) :=
  wordsAux s.toList []

/-- Modelled from the spec: the Feature Extractor (§4.2) is not under `src/`.
Pure; degrades to wordCount 0, language "pt", no signals on empty input.
Keyword lists follow the examples given in §4.2. -/
def extract (doc : EmailDocument) : FeatureSet :=
  let t := charsLower doc.text
  { wordCount := (wordsOf doc.text).length
    language := "pt"
    lexicalSignals :=
      (if containsAny t ["obrigado", "agradeço"] then [SignalCategory.gratitude] else []) ++
      (if containsAny t ["preciso", "solicito"] then [SignalCategory.request] else []) ++
      (if containsAny t ["erro", "problema"] then [SignalCategory.errorReport] else []) ++
      (if containsAny t ["atenciosamente", "abraço"] then [SignalCategory.closingPleasantry] else []) }

/-- Modelled from the spec: weighted productive score of the heuristic strategy
(§4.3): request / error-report signals plus structural bonuses for ticket
patterns and question marks.  The backend Classification Engine is not under
`src/`; weights are representative fixed constants. -/
def productiveScore (doc : EmailDocument) (f : FeatureSet) : Nat :=
  (if SignalCategory.request ∈ f.lexicalSignals then 2 else 0) +
  (if SignalCategory.errorReport ∈ f.lexicalSignals then 2 else 0) +
  (if hasTicket doc.text.toList then 1 else 0) +
  (if 0 < questionMarks doc.text then 1 else 0)

/-- Modelled from the spec: weighted unproductive score of the heuristic
strategy (§4.3): gratitude / closing-pleasantry signals plus structural
bonuses for short length and emoji presence.  Per §4.3 an empty body yields
zero scores, so the short-length bonus requires a nonempty body. -/
def unproductiveScore (doc : EmailDocument) (f : FeatureSet) : Nat :=
  (if SignalCategory.gratitude ∈ f.lexicalSignals then 2 else 0) +
  (if SignalCategory.closingPleasantry ∈ f.lexicalSignals then 2 else 0) +
  (if 0 < f.wordCount ∧ f.wordCount ≤ 5 then 1 else 0) +
  (if hasEmoji doc.text then 1 else 0)

/-- The fixed low-confidence constant used when no classification signal is
found (spec §4.3, "a fixed low confidence (e.g. 0.5)"). -/
def lowConfidence : ℚ := 1 / 2

/-- Modelled from the spec: `ClassificationResult` (§3). -/
structure ClassificationResult where
  label : Label
  confidence : ℚ
  reasoning : String
  modelUsed : String
deriving DecidableEq, Repr

/-- Templated reasoning string naming the dominant signal side (spec §4.3). -/
def dominantReason (p u : Nat) : String :=
  if u < p then "detected explicit request/error language"
  else "detected gratitude/closing language"

/-- Modelled from the spec: the heuristic strategy of the Classification
Engine (§4.3); the backend is not under `src/`.  Label is the side with the
higher score, ties resolve to UNPRODUCTIVE; confidence is
max(p,u)/(p+u) when p+u > 0, and the zero-signal case yields UNPRODUCTIVE
with the fixed low confidence. -/
def classifyHeuristic (doc : EmailDocument) (f : FeatureSet) : ClassificationResult :=
  let p := productiveScore doc f
  let u := unproductiveScore doc f
  if p + u = 0 then
    { label := Label.UNPRODUCTIVE
      confidence := lowConfidence
      reasoning := "no classification signal found"
      modelUsed := "heuristic" }
  else if u < p then
    { label := Label.PRODUCTIVE
      confidence := (max p u : ℚ) / ((p + u : Nat) : ℚ)
      reasoning := dominantReason p u
      modelUsed := "heuristic" }
  else
    { label := Label.UNPRODUCTIVE
      confidence := (max p u : ℚ) / ((p + u : Nat) : ℚ)
      reasoning := dominantReason p u
      modelUsed := "heuristic" }

/-- Modelled from the spec: the per-request data recorded by the Stats
Aggregator, drawn from a `ProcessingOutcome` (§3, §4.5). -/
structure Outcome where
  label : Label
  confidence : ℚ
  processingTimeMs : ℚ
  processedAt : Nat
deriving DecidableEq, Repr

/-- Modelled from the spec: `ProcessingStats` (§3); counters are integers so
that the spec's non-negativity assertion is a real statement about the
updates.  Mirrors the frontend type `ProcessingStats` of
`src/app/frontend/src/lib/api.ts`. -/
structure ProcessingStats where
  totalProcessed : ℤ
  productiveCount : ℤ
  unproductiveCount : ℤ
  averageConfidence : ℚ
  averageProcessingTimeMs : ℚ
  lastProcessedAt : Option Nat
deriving DecidableEq, Repr

/-- The all-zero initial statistics (spec §3: `lastProcessedAt` nullable until
the first record). -/
def initStats : ProcessingStats :=
  { totalProcessed := 0
    productiveCount := 0
    unproductiveCount := 0
    averageConfidence := 0
    averageProcessingTimeMs := 0
    lastProcessedAt := none }

/-- First half of the aggregator update: increment `totalProcessed`
(spec §4.5). -/
def bumpTotal (s : ProcessingStats) : ProcessingStats :=
  { s with totalProcessed := s.totalProcessed + 1 }

/-- Second half of the aggregator update: increment the matching label counter
and fold the outcome into the two running means with the incremental-mean
formula, the new count being the already-bumped total (spec §4.5). -/
def commitLabelAndMeans (s : ProcessingStats) (o : Outcome) : ProcessingStats :=
  { s with
    productiveCount :=
      s.productiveCount + (if o.label = Label.PRODUCTIVE then 1 else 0)
    unproductiveCount :=
      s.unproductiveCount + (if o.label = Label.UNPRODUCTIVE then 1 else 0)
    averageConfidence :=
      s.averageConfidence + (o.confidence - s.averageConfidence) / (s.totalProcessed : ℚ)
    averageProcessingTimeMs :=
      s.averageProcessingTimeMs +
        (o.processingTimeMs - s.averageProcessingTimeMs) / (s.totalProcessed : ℚ)
    lastProcessedAt := some o.processedAt }

/-- Modelled from the spec: the Stats Aggregator's single `record` update
(§4.5); the backend is not under `src/`. -/
def record (s : ProcessingStats) (o : Outcome) : ProcessingStats :=
  commitLabelAndMeans (bumpTotal s) o

/-- Error kinds surfaced by the pipeline (spec §7). -/
inductive PipelineError
  | UnsupportedFormat
  | DecodeError
deriving DecidableEq, Repr

/-- Modelled from the spec: the raw input accepted by the entry point (§6):
either a text blob or file bytes with a declared kind. -/
structure RawInput where
  text : Option String
  fileBytes : Option (List Nat)
  fileKind : Option String
deriving DecidableEq, Repr

/-- Collapse runs of blank lines and trim each line (spec §4.1 whitespace
normalization). -/
def collapseBlanks : List String → List String
  | [] => []
  | [l] => [l]
  | a :: b :: rest =>
      if a = "" && b = "" then collapseBlanks (b :: rest)
      else a :: collapseBlanks (b :: rest)

/-- Whitespace normalization of a body (spec §4.1): per-line trim, blank-line
collapse, leading/trailing trim. -/
def normText (s : String) : String :=
  (String.intercalate "\n" (collapseBlanks ((s.splitOn "\n").map String.trim))).trim

/-- Modelled from the spec: best-effort byte decoding for the pdf/eml branches
of the Normalizer (§4.1): ASCII byte streams decode, anything else is a
`DecodeError`. -/
def decodeBytes (bytes : List Nat) : Except PipelineError String :=
  if bytes.all (fun b => b < 128) then
    Except.ok (String.mk (bytes.map Char.ofNat))
  else
    Except.error PipelineError.DecodeError

/-- Modelled from the spec: the Document Normalizer (§4.1); the backend is not
under `src/`.  Fails with `UnsupportedFormat` when the declared `fileKind` is
not one of text, pdf, eml. -/
def normalize (i : RawInput) : Except PipelineError EmailDocument :=
  match i.fileKind with
  | none =>
      match i.text with
      | some t =>
          Except.ok
            { text := normText t
              subject := none
              sourceFormat := SourceFormat.plainText
              hasAttachments := false
              rawByteLength := t.length }
      | none => Except.error PipelineError.UnsupportedFormat
  | some k =>
      if k = "text" then
        match i.text with
        | some t =>
            Except.ok
              { text := normText t
                subject := none
                sourceFormat := SourceFormat.plainText
                hasAttachments := false
                rawByteLength := t.length }
        | none => Except.error PipelineError.DecodeError
      else if k = "pdf" then
        match i.fileBytes with
        | some bytes =>
            (decodeBytes bytes).map fun t =>
              { text := normText t
                subject := none
                sourceFormat := SourceFormat.pdf
                hasAttachments := false
                rawByteLength := bytes.length }
        | none => Except.error PipelineError.DecodeError
      else if k = "eml" then
        match i.fileBytes with
        | some bytes =>
            (decodeBytes bytes).map fun t =>
              { text := normText t
                subject := none
                sourceFormat := SourceFormat.eml
                hasAttachments := false
                rawByteLength := bytes.length }
        | none => Except.error PipelineError.DecodeError
      else Except.error PipelineError.UnsupportedFormat

/-- Reply tone (spec §3, SuggestedResponse.tone). -/
inductive Tone
  | professional
  | friendly
deriving DecidableEq, Repr

/-- Modelled from the spec: `SuggestedResponse` (§3). -/
structure SuggestedResponse where
  subject : Option String
  body : String
  tone : Tone
  language : String
deriving DecidableEq, Repr

/-- Modelled from the spec: the Response Composer (§4.4); the backend is not
under `src/`.  Tone is fixed by the label; the UNPRODUCTIVE subject stays
empty unless a ticket reference was detected. -/
def compose (lab : Label) (f : FeatureSet) (doc : EmailDocument) : SuggestedResponse :=
  match lab with
  | Label.PRODUCTIVE =>
      { subject := some ("Re: " ++ (doc.subject.getD (doc.text.take 60)))
        body := "Recebemos sua solicitação e retornaremos em breve."
        tone := Tone.professional
        language := f.language }
  | Label.UNPRODUCTIVE =>
      { subject :=
          if hasTicket doc.text.toList then
            some ("Re: " ++ (doc.subject.getD (doc.text.take 60)))
          else none
        body := "Obrigado pela sua mensagem."
        tone := Tone.friendly
        language := f.language }

/-- Modelled from the spec: `ProcessingOutcome` (§3). -/
structure ProcessingOutcome where
  document : EmailDocument
  classification : ClassificationResult
  response : SuggestedResponse
  processingTimeMs : ℚ
deriving DecidableEq, Repr

/-- Modelled from the spec: the Pipeline Orchestrator (§4.6); the backend is
not under `src/`.  Returns the request result together with the statistics
state after the call: on a Normalizer failure the typed error propagates and
the statistics are returned untouched (`record` is not called); on success
the Stats Aggregator records exactly once.  Wall-clock duration and the
current time are inputs. -/
def processWithStats (s : ProcessingStats) (i : RawInput) (timeMs : ℚ) (now : Nat) :
    Except PipelineError ProcessingOutcome × ProcessingStats :=
  match normalize i with
  | Except.error e => (Except.error e, s)
  | Except.ok doc =>
      let f := extract doc
      let c := classifyHeuristic doc f
      let r := compose c.label f doc
      let o : Outcome :=
        { label := c.label
          confidence := c.confidence
          processingTimeMs := timeMs
          processedAt := now }
      (Except.ok
        { document := doc
          classification := c
          response := r
          processingTimeMs := timeMs }, record s o)

/-- Modelled from the spec: the static labels list of the labels-listing
endpoint (§6); the backend is not under `src/`. -/
def labelName : Label → String
  | Label.PRODUCTIVE => "PRODUCTIVE"
  | Label.UNPRODUCTIVE => "UNPRODUCTIVE"

/-- Modelled from the spec: `supportedLabels() -> ["PRODUCTIVE",
"UNPRODUCTIVE"]` (§6); a static list independent of any input or prior
processing. -/
def supportedLabels : List String :=
  [labelName Label.PRODUCTIVE, labelName Label.UNPRODUCTIVE]

/-- Progress of an in-flight `record` through its two micro-updates
(spec §4.5 "increment-counts-then-update-means sequence"). -/
inductive Phase
  | beforeTotal
  | afterTotal
deriving DecidableEq, Repr

/-- Modelled from the spec: the shared aggregator state under concurrency
(§5); the backend is not under `src/`.  `inFlight` plays the role of the
single lock: it holds the outcome and progress of the at-most-one `record`
currently inside the critical section. -/
structure AggState where
  stats : ProcessingStats
  inFlight : Option (Outcome × Phase)
deriving DecidableEq, Repr

/-- Modelled from the spec: interleaved execution of concurrent `record`
calls (§5).  A caller acquires the lock, performs the two micro-updates in
order, and releases the lock with the second one. -/
inductive AggStep : AggState → AggState → Prop
  | acquire (s : ProcessingStats) (o : Outcome) :
      AggStep ⟨s, none⟩ ⟨s, some (o, Phase.beforeTotal)⟩
  | bump (s : ProcessingStats) (o : Outcome) :
      AggStep ⟨s, some (o, Phase.beforeTotal)⟩ ⟨bumpTotal s, some (o, Phase.afterTotal)⟩
  | commit (s : ProcessingStats) (o : Outcome) :
      AggStep ⟨s, some (o, Phase.afterTotal)⟩ ⟨commitLabelAndMeans s o, none⟩

/-- States reachable from the initial aggregator state by any interleaving of
concurrent `record` calls. -/
inductive AggReachable : AggState → Prop
  | init : AggReachable ⟨initStats, none⟩
  | step {s t : AggState} : AggReachable s → AggStep s t → AggReachable t

/-- Modelled from the spec: `snapshot` (§4.5, §5) returns a point-in-time copy
of the statistics; mutual exclusion with `record` means it only observes
states where no `record` is inside the critical section. -/
def snapshot (s : AggState) : Option ProcessingStats :=
  match s.inFlight with
  | none => some s.stats
  | some _ => none

/-- The counter invariant of spec §3: the label counters partition the total
and all three are non-negative. -/
def StatsInv (s : ProcessingStats) : Prop :=
  s.productiveCount + s.unproductiveCount = s.totalProcessed ∧
  0 ≤ s.totalProcessed ∧ 0 ≤ s.productiveCount ∧ 0 ≤ s.unproductiveCount

/-- Counter consistency of a statistics value (spec §5): the label counters
account for the whole total. -/
def Balanced (st : ProcessingStats) : Prop :=
  st.productiveCount + st.unproductiveCount = st.totalProcessed

/-- Invariant of the interleaved aggregator: outside the window between the
two micro-updates the statistics are balanced; inside it the total is exactly
one ahead of the label counters. -/
def midInv (s : AggState) : Prop :=
  match s.inFlight with
  | some (_, Phase.afterTotal) =>
      s.stats.productiveCount + s.stats.unproductiveCount + 1 = s.stats.totalProcessed
  | _ => Balanced s.stats

end Core

namespace Frontend

/-- The structured API error surfaced to callers,
`src/app/frontend/src/types/index.ts` (`ApiError`). -/
structure ApiError where
  detail : String
  errorCode : Option String
  timestamp : String
deriving DecidableEq, Repr

/-- The three failure shapes distinguished by the axios response interceptor
in `src/app/frontend/src/api/client.ts`: a server error response (with the
optional `detail` / `error_code` fields of its JSON body), a request that got
no response, and a request-construction error. -/
inductive AxiosFailure
  | response (detail : Option String) (errorCode : Option String)
  | noResponse
  | setupError
deriving DecidableEq, Repr

/-- JavaScript `a || b` on an optional string: the default is used when the
value is absent or empty (falsy). -/
def jsOr (v : Option String) (dflt : String) : String :=
  match v with
  | some s => if s = "" then dflt else s
  | none => dflt

/-- The error mapping of the response interceptor in
`src/app/frontend/src/api/client.ts` lines 34-63; `t` is the value of
`new Date().toISOString()` at interception time. -/
def toApiError (t : String) : AxiosFailure → ApiError
  | AxiosFailure.response d c =>
      { detail := jsOr d "Erro desconhecido"
        errorCode := c
        timestamp := t }
  | AxiosFailure.noResponse =>
      { detail := "Servidor não respondeu. Verifique sua conexão."
        errorCode := some "NETWORK_ERROR"
        timestamp := t }
  | AxiosFailure.setupError =>
      { detail := "Erro inesperado ocorreu"
        errorCode := some "UNKNOWN_ERROR"
        timestamp := t }

/-- The whole response interceptor: successful responses pass through, every
failure is re-raised (`Promise.reject`) as a structured `ApiError`. -/
def interceptResponse {α : Type} (t : String) :
    Except AxiosFailure α → Except ApiError α
  | Except.ok r => Except.ok r
  | Except.error f => Except.error (toApiError t f)

/-- A file as seen by the dropzone (name, byte size, MIME type). -/
structure DroppedFile where
  name : String
  size : Nat
  mime : String
deriving DecidableEq, Repr

/-- Constant `MAX_FILE_SIZE` from `src/app/frontend/src/components/FileUpload.tsx`
line 12. -/
def MAX_FILE_SIZE : Nat := 10 * 1024 * 1024

/-- The MIME types of `ACCEPTED_TYPES` in `FileUpload.tsx` lines 13-17. -/
def acceptedMimes : List String :=
  ["text/plain", "application/pdf", "message/rfc822"]

/-- Dropzone rejection error codes relevant to `FileUpload.onDrop`. -/
inductive RejectCode
  | fileTooLarge
  | fileInvalidType
  | otherError
deriving DecidableEq, Repr

/-- A rejected file together with its error codes, as handed to `onDrop` by
the dropzone. -/
structure FileRejection where
  file : DroppedFile
  errors : List RejectCode
deriving DecidableEq, Repr

/-- Observable effects of `FileUpload.onDrop`: calls to the `onError` and
`onFileChange` props. -/
inductive UploadEvent
  | errorMsg (msg : String)
  | fileChange (file : Option DroppedFile)
deriving DecidableEq, Repr

/-- Handler `FileUpload.onDrop` from `src/app/frontend/src/components/FileUpload.tsx`
lines 22-44: with any rejection present the first rejection's errors select
one `onError` message and the handler returns; otherwise the first accepted
file is passed to `onFileChange`. -/
def onDrop (accepted : List DroppedFile) (rejected : List FileRejection) :
    List UploadEvent :=
  match rejected with
  | r :: _ =>
      if r.errors.contains RejectCode.fileTooLarge then
        [UploadEvent.errorMsg "Arquivo muito grande. Tamanho máximo: 10MB"]
      else if r.errors.contains RejectCode.fileInvalidType then
        [UploadEvent.errorMsg "Tipo de arquivo não suportado. Use .txt, .pdf ou .eml"]
      else
        [UploadEvent.errorMsg "Erro ao processar arquivo"]
  | [] =>
      match accepted with
      | f :: _ => [UploadEvent.fileChange (some f)]
      | [] => []

/-- Validation react-dropzone applies to one offered file under the props
passed in `FileUpload.tsx` (`accept: ACCEPTED_TYPES`, `maxSize:
MAX_FILE_SIZE`): an unaccepted MIME type yields `file-invalid-type`, a size
strictly above `maxSize` yields `file-too-large`. -/
def dropzoneErrors (f : DroppedFile) : List RejectCode :=
  (if f.mime ∈ acceptedMimes then [] else [RejectCode.fileInvalidType]) ++
  (if MAX_FILE_SIZE < f.size then [RejectCode.fileTooLarge] else [])

/-- Offering a single file to the upload component: the dropzone validates it
and `onDrop` receives it as accepted or rejected accordingly. -/
def dropSingleFile (f : DroppedFile) : List UploadEvent :=
  match dropzoneErrors f with
  | [] => onDrop [f] []
  | errs => onDrop [] [⟨f, errs⟩]

/-- The `classification` field of `EmailProcessingResponse`,
`src/app/frontend/src/lib/api.ts` lines 17-22. -/
structure Classification where
  label : String
  confidence : ℚ
  reasoning : Option String
  model_used : Option String
deriving DecidableEq, Repr

/-- The `suggested_response` field of `EmailProcessingResponse`,
`src/app/frontend/src/lib/api.ts` lines 23-28. -/
structure SuggestedResponseData where
  subject : String
  body : String
  tone : String
  language : String
deriving DecidableEq, Repr

/-- The `metadata` field of `EmailProcessingResponse`,
`src/app/frontend/src/lib/api.ts` lines 30-34. -/
structure ResponseMetadata where
  word_count : Nat
  language : String
  has_attachments : Bool
deriving DecidableEq, Repr

/-- Interface `EmailProcessingResponse` from `src/app/frontend/src/lib/api.ts`
lines 14-36. -/
structure EmailProcessingResponse where
  success : Bool
  email_id : String
  classification : Classification
  suggested_response : SuggestedResponseData
  processing_time_ms : ℚ
  metadata : ResponseMetadata
  error : Option String
deriving DecidableEq, Repr

/-- State `ProcessingState` of the hook,
`src/app/frontend/src/hooks/useEmailProcessing.ts` lines 8-12. -/
structure ProcessingState where
  isLoading : Bool
  error : Option String
  result : Option EmailProcessingResponse
deriving DecidableEq, Repr

/-- The hook's initial state (`useEmailProcessing.ts` lines 22-26), also what
`reset` installs (lines 71-77). -/
def initialState : ProcessingState :=
  { isLoading := false, error := none, result := none }

/-- The value thrown by a failing API call: either an `Error` instance with a
message or some other thrown value (`error instanceof Error` test,
`useEmailProcessing.ts` line 44). -/
inductive Thrown
  | errObj (message : String)
  | nonError
deriving DecidableEq, Repr

/-- The message the hook stores for a thrown value
(`useEmailProcessing.ts` lines 44 and 66). -/
def thrownMessage : Thrown → String
  | Thrown.errObj m => m
  | Thrown.nonError => "Erro desconhecido"

/-- Result of the awaited API call inside the hook. -/
inductive CallOutcome
  | ok (r : EmailProcessingResponse)
  | failed (e : Thrown)
deriving DecidableEq, Repr

/-- The synchronous state update at the start of `processEmailText` /
`processEmailFile` (`useEmailProcessing.ts` lines 30 and 52). -/
def startCall (s : ProcessingState) : ProcessingState :=
  { s with isLoading := true, error := none }

/-- The state update after the awaited call settles: the try branch on
success (lines 34-39 / 56-61), the catch branch on failure
(lines 41-45 / 63-67). -/
def finishCall (s : ProcessingState) : CallOutcome → ProcessingState
  | CallOutcome.ok r =>
      { s with isLoading := false, result := some r, error := none }
  | CallOutcome.failed e =>
      { s with isLoading := false, error := some (thrownMessage e) }

/-- A whole `processEmailText` / `processEmailFile` call (both bodies perform
the same state updates): the start update followed by the settling update. -/
def processEmailCall (s : ProcessingState) (o : CallOutcome) : ProcessingState :=
  finishCall (startCall s) o

/-- Function `reset` from `useEmailProcessing.ts` lines 71-77. -/
def reset (_ : ProcessingState) : ProcessingState :=
  initialState

end Frontend

namespace Core

/-- C1: for every input document whose text is empty, `classify` returns label
UNPRODUCTIVE with confidence equal to the fixed low-confidence constant and
reasoning stating that no classification signal was found. -/
theorem empty_text_classifies_unproductive (doc : EmailDocument)
    (h : doc.text = "") :
    classifyHeuristic doc (extract doc) =
      { label := Label.UNPRODUCTIVE
        confidence := lowConfidence
        reasoning := "no classification signal found"
        modelUsed := "heuristic" } := by
  obtain ⟨t, subj, sf, ha, len⟩ := doc
  simp only at h
  subst h
  rfl

/-- Witness for C1 at a concrete empty document. -/
theorem empty_text_classifies_unproductive_witness :
    classifyHeuristic ⟨"", none, SourceFormat.plainText, false, 0⟩
        (extract ⟨"", none, SourceFormat.plainText, false, 0⟩) =
      { label := Label.UNPRODUCTIVE
        confidence := lowConfidence
        reasoning := "no classification signal found"
        modelUsed := "heuristic" } :=
  empty_text_classifies_unproductive ⟨"", none, SourceFormat.plainText, false, 0⟩ rfl

/-- C3: the heuristic strategy labels PRODUCTIVE exactly when the productive
score is strictly higher, UNPRODUCTIVE when the unproductive score is
strictly higher, UNPRODUCTIVE on a tie, and whenever the scores are not both
zero the confidence is the larger score divided by their sum. -/
theorem heuristic_label_and_confidence (doc : EmailDocument) (f : FeatureSet) :
    (unproductiveScore doc f < productiveScore doc f →
      (classifyHeuristic doc f).label = Label.PRODUCTIVE) ∧
    (productiveScore doc f < unproductiveScore doc f →
      (classifyHeuristic doc f).label = Label.UNPRODUCTIVE) ∧
    (productiveScore doc f = unproductiveScore doc f →
      (classifyHeuristic doc f).label = Label.UNPRODUCTIVE) ∧
    (0 < productiveScore doc f + unproductiveScore doc f →
      (classifyHeuristic doc f).confidence =
        (max (productiveScore doc f) (unproductiveScore doc f) : ℚ) /
          ((productiveScore doc f + unproductiveScore doc f : ℕ) : ℚ)) := by
  unfold classifyHeuristic
  by_cases h0 : productiveScore doc f + unproductiveScore doc f = 0
  · refine ⟨fun hlt => ?_, fun hlt => ?_, fun _ => ?_, fun hpos => ?_⟩ <;>
      simp [h0] <;> omega
  · by_cases hlt : unproductiveScore doc f < productiveScore doc f
    · refine ⟨fun _ => ?_, fun hgt => ?_, fun heq => ?_, fun _ => ?_⟩ <;>
        simp [h0, hlt] <;> omega
    · refine ⟨fun hgt => ?_, fun _ => ?_, fun _ => ?_, fun _ => ?_⟩ <;>
        simp [h0, hlt] <;> omega

/-- Witness for C3 at a feature set carrying a request signal. -/
theorem heuristic_label_and_confidence_witness :
    (classifyHeuristic ⟨"", none, SourceFormat.plainText, false, 0⟩
      ⟨0, "pt", [SignalCategory.request]⟩).label = Label.PRODUCTIVE :=
  (heuristic_label_and_confidence ⟨"", none, SourceFormat.plainText, false, 0⟩
    ⟨0, "pt", [SignalCategory.request]⟩).1 (by decide)

/-- C8: the labels-listing operation returns exactly
["PRODUCTIVE", "UNPRODUCTIVE"], in that order. -/
theorem supported_labels_constant :
    supportedLabels = ["PRODUCTIVE", "UNPRODUCTIVE"] := rfl

/-- One `record` call preserves the counter invariant. -/
theorem statsInv_record (o : Outcome) {s : ProcessingStats} (h : StatsInv s) :
    StatsInv (record s o) := by
  obtain ⟨h1, h2, h3, h4⟩ := h
  unfold record commitLabelAndMeans bumpTotal StatsInv
  cases o.label <;> simp <;> omega

/-- Folding any list of outcomes through `record` preserves the counter
invariant. -/
theorem statsInv_fold (l : List Outcome) (s : ProcessingStats) (h : StatsInv s) :
    StatsInv (l.foldl record s) := by
  induction l generalizing s with
  | nil => exact h
  | cons o rest ih => exact ih (record s o) (statsInv_record o h)

/-- C2: after any sequence of `record` calls starting from the all-zero
statistics, the productive and unproductive counters sum to the total and all
three counters are non-negative. -/
theorem record_sequence_counter_invariant (l : List Outcome) :
    (l.foldl record initStats).productiveCount +
        (l.foldl record initStats).unproductiveCount =
      (l.foldl record initStats).totalProcessed ∧
    0 ≤ (l.foldl record initStats).totalProcessed ∧
    0 ≤ (l.foldl record initStats).productiveCount ∧
    0 ≤ (l.foldl record initStats).unproductiveCount :=
  statsInv_fold l initStats ⟨rfl, le_refl 0, le_refl 0, le_refl 0⟩

/-- One `record` call keeps the total non-negative. -/
theorem record_total_nonneg (o : Outcome) {s : ProcessingStats}
    (h : 0 ≤ s.totalProcessed) : 0 ≤ (record s o).totalProcessed := by
  unfold record commitLabelAndMeans bumpTotal
  simp
  omega

/-- One `record` call adds the outcome's confidence to the product of the
running mean with the total. -/
theorem record_mean_step (o : Outcome) {s : ProcessingStats}
    (h : 0 ≤ s.totalProcessed) :
    (record s o).averageConfidence * (((record s o).totalProcessed : ℤ) : ℚ)
      = s.averageConfidence * ((s.totalProcessed : ℤ) : ℚ) + o.confidence := by
  unfold record commitLabelAndMeans bumpTotal
  simp only
  have hpos : (0 : ℚ) < ((s.totalProcessed + 1 : ℤ) : ℚ) := by
    exact_mod_cast (by omega : (0 : ℤ) < s.totalProcessed + 1)
  field_simp
  ring

/-- Folding outcomes through `record` adds their number to the total and their
summed confidence to the product of the running mean with the total. -/
theorem fold_total_and_mean (l : List Outcome) (s : ProcessingStats)
    (h : 0 ≤ s.totalProcessed) :
    (l.foldl record s).totalProcessed = s.totalProcessed + l.length ∧
    (l.foldl record s).averageConfidence *
        (((l.foldl record s).totalProcessed : ℤ) : ℚ)
      = s.averageConfidence * ((s.totalProcessed : ℤ) : ℚ) +
          (l.map Outcome.confidence).sum := by
  induction l generalizing s with
  | nil => simp
  | cons o rest ih =>
      obtain ⟨ht, hm⟩ := ih (record s o) (record_total_nonneg o h)
      have htot : (record s o).totalProcessed = s.totalProcessed + 1 := by
        unfold record commitLabelAndMeans bumpTotal
        simp
      refine ⟨?_, ?_⟩
      · rw [List.foldl_cons, ht, htot]
        simp only [List.length_cons]
        push_cast
        ring
      · rw [List.foldl_cons, hm, record_mean_step o h]
        simp
        ring

/-- C7: after recording any non-empty sequence of outcomes starting from the
all-zero statistics, the running `averageConfidence` maintained by the
incremental-mean update equals the arithmetic mean of the recorded
confidence values, exactly over the rationals. -/
theorem average_confidence_is_mean (l : List Outcome) (h : l ≠ []) :
    (l.foldl record initStats).averageConfidence
      = (l.map Outcome.confidence).sum / (l.length : ℚ) := by
  obtain ⟨ht, hm⟩ := fold_total_and_mean l initStats (le_refl 0)
  have hlen : (0 : ℚ) < (l.length : ℚ) := by
    have : 0 < l.length := List.length_pos.mpr h
    exact_mod_cast this
  rw [eq_div_iff (ne_of_gt hlen)]
  rw [ht] at hm
  simp only [initStats] at hm
  push_cast at hm
  simpa using hm

/-- Witness for C7 at a concrete two-element outcome list. -/
theorem average_confidence_is_mean_witness :
    (([⟨Label.PRODUCTIVE, 1, 2, 5⟩, ⟨Label.UNPRODUCTIVE, 1/2, 3, 6⟩] :
        List Outcome).foldl record initStats).averageConfidence
      = (([⟨Label.PRODUCTIVE, 1, 2, 5⟩, ⟨Label.UNPRODUCTIVE, 1/2, 3, 6⟩] :
          List Outcome).map Outcome.confidence).sum /
        (([⟨Label.PRODUCTIVE, 1, 2, 5⟩, ⟨Label.UNPRODUCTIVE, 1/2, 3, 6⟩] :
          List Outcome).length : ℚ) :=
  average_confidence_is_mean _ (by simp)

/-- C4: an input with a declared file kind outside {text, pdf, eml} makes the
pipeline fail with `UnsupportedFormat` and leaves the statistics state
untouched (`record` is not called). -/
theorem unsupported_kind_rejected_stats_unchanged (s : ProcessingStats)
    (i : RawInput) (timeMs : ℚ) (now : Nat) (k : String)
    (hk : i.fileKind = some k)
    (h1 : k ≠ "text") (h2 : k ≠ "pdf") (h3 : k ≠ "eml") :
    processWithStats s i timeMs now =
      (Except.error PipelineError.UnsupportedFormat, s) := by
  unfold processWithStats normalize
  rw [hk]
  simp [h1, h2, h3]

/-- Witness for C4 at the spec's "docx" scenario. -/
theorem unsupported_kind_rejected_stats_unchanged_witness :
    processWithStats initStats ⟨none, none, some "docx"⟩ 0 0 =
      (Except.error PipelineError.UnsupportedFormat, initStats) :=
  unsupported_kind_rejected_stats_unchanged initStats ⟨none, none, some "docx"⟩
    0 0 "docx" rfl (by decide) (by decide) (by decide)

/-- Every reachable aggregator state satisfies the mid-update invariant. -/
theorem aggReachable_midInv {s : AggState} (h : AggReachable s) : midInv s := by
  induction h with
  | init => simp [midInv, Balanced, initStats]
  | step hr hs ih =>
      cases hs with
      | acquire st o => simpa [midInv, Balanced] using ih
      | bump st o =>
          simp only [midInv, Balanced, bumpTotal] at ih ⊢
          omega
      | commit st o =>
          simp only [midInv, Balanced, commitLabelAndMeans] at ih ⊢
          cases o.label <;> simp <;> omega

/-- C6: in every interleaving of concurrent `record` calls with `snapshot`,
any statistics value a `snapshot` returns has its label counters accounting
for the whole total — the window where `totalProcessed` is incremented but
the label counters are not is never observable. -/
theorem snapshot_consistent (s : AggState) (st : ProcessingStats)
    (hr : AggReachable s) (hsnap : snapshot s = some st) :
    st.productiveCount + st.unproductiveCount = st.totalProcessed := by
  have hinv := aggReachable_midInv hr
  obtain ⟨stats, fl⟩ := s
  cases fl with
  | none =>
      have hb : Balanced stats := by simpa [midInv] using hinv
      have hst : stats = st := by simpa [snapshot] using hsnap
      rw [← hst]
      exact hb
  | some p => simp [snapshot] at hsnap

/-- Witness for C6 at the initial aggregator state. -/
theorem snapshot_consistent_witness :
    initStats.productiveCount + initStats.unproductiveCount =
      initStats.totalProcessed :=
  snapshot_consistent ⟨initStats, none⟩ initStats AggReachable.init rfl

end Core

namespace Frontend

/-- C5: every failed API request surfaces as a structured `ApiError` with a
non-empty detail message and the interception timestamp, the server-response
shape carries the response body's error code and the other two shapes carry
fixed codes, and no failure is swallowed: the interceptor re-raises every
failure as that `ApiError`. -/
theorem api_failures_surface_structured (t : String) (f : AxiosFailure)
    (d : Option String) (c : Option String) :
    (toApiError t f).detail ≠ "" ∧
    (toApiError t f).timestamp = t ∧
    @interceptResponse Unit t (Except.error f) = Except.error (toApiError t f) ∧
    (toApiError t (AxiosFailure.response d c)).errorCode = c ∧
    (toApiError t AxiosFailure.noResponse).errorCode = some "NETWORK_ERROR" ∧
    (toApiError t AxiosFailure.setupError).errorCode = some "UNKNOWN_ERROR" := by
  refine ⟨?_, ?_, rfl, rfl, rfl, rfl⟩
  · cases f with
    | response fd fc =>
        cases fd with
        | none => simp [toApiError, jsOr]
        | some s =>
            by_cases hs : s = "" <;> simp [toApiError, jsOr, hs]
    | noResponse => simp [toApiError]
    | setupError => simp [toApiError]
  · cases f <;> rfl

/-- C9: offering the upload component a file whose size exceeds
10 * 1024 * 1024 bytes produces exactly the oversize `onError` call and no
`onFileChange` call, whatever the file's MIME type. -/
theorem oversize_file_rejected (f : DroppedFile)
    (h : MAX_FILE_SIZE < f.size) :
    dropSingleFile f =
      [UploadEvent.errorMsg "Arquivo muito grande. Tamanho máximo: 10MB"] ∧
    ∀ g, UploadEvent.fileChange g ∉ dropSingleFile f := by
  have hdrop : dropSingleFile f =
      [UploadEvent.errorMsg "Arquivo muito grande. Tamanho máximo: 10MB"] := by
    unfold dropSingleFile dropzoneErrors
    by_cases hm : f.mime ∈ acceptedMimes <;> simp [hm, h, onDrop]
  refine ⟨hdrop, fun g => ?_⟩
  rw [hdrop]
  simp

/-- Witness for C9 at a file one byte over the limit. -/
theorem oversize_file_rejected_witness :
    dropSingleFile ⟨"big.txt", 10485761, "text/plain"⟩ =
      [UploadEvent.errorMsg "Arquivo muito grande. Tamanho máximo: 10MB"] ∧
    ∀ g, UploadEvent.fileChange g ∉
      dropSingleFile ⟨"big.txt", 10485761, "text/plain"⟩ :=
  oversize_file_rejected ⟨"big.txt", 10485761, "text/plain"⟩ (by decide)

/-- C10: a failing call through the hook leaves the stored result unchanged,
clears the loading flag, records the thrown message as the error, and `reset`
restores the exact initial state. -/
theorem error_path_preserves_result (s : ProcessingState) (e : Thrown) :
    (processEmailCall s (CallOutcome.failed e)).result = s.result ∧
    (processEmailCall s (CallOutcome.failed e)).isLoading = false ∧
    (processEmailCall s (CallOutcome.failed e)).error = some (thrownMessage e) ∧
    reset s = { isLoading := false, error := none, result := none } :=
  ⟨rfl, rfl, rfl, rfl⟩

end Frontend
